import Mathlib

/-!
Verification of the tooltip controller in `src/tooltip.js`.

The script wires two event handlers onto every region (`path`) element:
a `mousemove` handler that positions and fills a single overlay element
(`#tooltip`), and a `mouseleave` handler that hides it.  We embed the
overlay's mutable style/content state, the region elements, and the two
handlers as pure Lean functions, and prove the specified properties.
-/

namespace Tooltip

/-- The mutable state of the overlay element `#tooltip`: the style
properties `left`, `top`, `display` and the element's `innerHTML`,
exactly the four fields the script mutates. -/
structure Overlay where
  left : String
  top : String
  display : String
  innerHTML : String
deriving DecidableEq

/-- A region (`path`) element: its `id` and its attribute list
(association list from attribute name to string value), as seen by
`getAttribute` / `setAttribute`. -/
structure Region where
  id : String
  attributes : List (String × String)
deriving DecidableEq

/-- DOM `getAttribute`: the value of the first binding of `name`, or
`none` (JavaScript `null`) when the attribute is absent. -/
def Region.getAttribute (state : Region) (name : String) : Option String :=
  (state.attributes.find? (fun attr => attr.1 == name)).map Prod.snd

/-- DOM `setAttribute`: replace any existing binding of `name` with
`value`.  Used to model the host document changing an attribute after
the script has initialized. -/
def Region.setAttribute (state : Region) (name value : String) : Region :=
  { state with
    attributes := (name, value) :: state.attributes.filter (fun attr => attr.1 != name) }

/-- The page coordinates carried by a `mousemove` event
(`e.pageX`, `e.pageY`); the spec restricts attention to nonnegative
coordinates, so we use `Nat`. -/
structure MoveEvent where
  pageX : Nat
  pageY : Nat
deriving DecidableEq

/-- JavaScript template-literal stringification of a `getAttribute`
result: a present attribute interpolates as its string value, and an
absent one (`null`) interpolates as the string `"null"`. -/
def interpolate : Option String → String
  | some v => v
  | none => "null"

/-- The `mousemove` handler (src/tooltip.js lines 3-9): read the
region's `data-inflation` attribute, set `left` to `pageX + 10`
pixels and `top` to `pageY + 10` pixels, set `display` to `"block"`,
and set the content to `` `${state.id}: ${value}` ``. -/
def mousemoveHandler (state : Region) (e : MoveEvent) (_tooltip : Overlay) : Overlay :=
  let value := state.getAttribute "data-inflation"
  { left := toString (e.pageX + 10) ++ "px"
    top := toString (e.pageY + 10) ++ "px"
    display := "block"
    innerHTML := state.id ++ ": " ++ interpolate value }

/-- The `mouseleave` handler (src/tooltip.js lines 10-12): set
`display` to `"none"`, touching nothing else. -/
def mouseleaveHandler (tooltip : Overlay) : Overlay :=
  { tooltip with display := "none" }

/-- A pointer event dispatched by the host: a `mousemove` over a region
with page coordinates, or a `mouseleave` from a region. -/
inductive PointerEvent where
  | mousemove (state : Region) (e : MoveEvent) : PointerEvent
  | mouseleave (state : Region) : PointerEvent
deriving DecidableEq

/-- Run the handler registered for one dispatched event on the current
overlay state. -/
def dispatch (ev : PointerEvent) (tooltip : Overlay) : Overlay :=
  match ev with
  | .mousemove state e => mousemoveHandler state e tooltip
  | .mouseleave _ => mouseleaveHandler tooltip

/-- Run a finite sequence of pointer events in dispatch order; each
handler runs to completion before the next event is applied. -/
def run (evs : List PointerEvent) (tooltip : Overlay) : Overlay :=
  evs.foldl (fun t ev => dispatch ev t) tooltip

/-- The kind of listener registered by `addEventListener`. -/
inductive EventType where
  | mousemove
  | mouseleave
deriving DecidableEq

/-- The listener registrations performed by the top-level script
(src/tooltip.js lines 2-13): for each region element, in document
order, one `mousemove` listener then one `mouseleave` listener. -/
def registrations (states : List Region) : List (Region × EventType) :=
  states.flatMap (fun state => [(state, EventType.mousemove), (state, EventType.mouseleave)])

/-- Loading the script: it looks up the overlay, enumerates the region
elements once and registers listeners; the overlay state itself is
returned unchanged because no handler has run yet. -/
def loadScript (states : List Region) (tooltip : Overlay) : Overlay × List (Region × EventType) :=
  (tooltip, registrations states)

/-- Helper: among the listener registrations made at load time, the
number of listeners of kind `ty` attached to region `s` equals the
number of occurrences of `s` in the region list. -/
theorem registrations_countP (states : List Region) (s : Region) (ty : EventType) :
    (registrations states).countP (fun reg => reg.1 == s && reg.2 == ty) = states.count s := by
  induction states with
  | nil => cases ty <;> rfl
  | cons x xs ih =>
    cases ty <;>
      simp [registrations, List.countP_cons, List.count_cons, beq_iff_eq] at ih ⊢ <;>
      simp [ih]

/-- C1: a mousemove over a region whose data attribute holds value `v`
sets the overlay content to exactly `"<id>: <v>"` and the display to
`"block"`. -/
theorem mousemove_shows_value (state : Region) (v : String) (e : MoveEvent) (tooltip : Overlay)
    (h : state.getAttribute "data-inflation" = some v) :
    (dispatch (PointerEvent.mousemove state e) tooltip).innerHTML = state.id ++ ": " ++ v ∧
    (dispatch (PointerEvent.mousemove state e) tooltip).display = "block" := by
  simp [dispatch, mousemoveHandler, h, interpolate]

/-- Witness for C1 at region `CA` with `data-inflation="3.2%"` and page
coordinates (100, 200). -/
theorem mousemove_shows_value_witness :
    (dispatch (PointerEvent.mousemove ⟨"CA", [("data-inflation", "3.2%")]⟩ ⟨100, 200⟩)
        ⟨"0px", "0px", "none", ""⟩).innerHTML = "CA" ++ ": " ++ "3.2%" ∧
    (dispatch (PointerEvent.mousemove ⟨"CA", [("data-inflation", "3.2%")]⟩ ⟨100, 200⟩)
        ⟨"0px", "0px", "none", ""⟩).display = "block" :=
  mousemove_shows_value ⟨"CA", [("data-inflation", "3.2%")]⟩ "3.2%" ⟨100, 200⟩
    ⟨"0px", "0px", "none", ""⟩ (by decide)

/-- C2: a mousemove at page coordinates (x, y) sets the overlay left
style to (x+10) pixels and the top style to (y+10) pixels. -/
theorem mousemove_offsets_position (state : Region) (e : MoveEvent) (tooltip : Overlay) :
    (dispatch (PointerEvent.mousemove state e) tooltip).left = toString (e.pageX + 10) ++ "px" ∧
    (dispatch (PointerEvent.mousemove state e) tooltip).top = toString (e.pageY + 10) ++ "px" :=
  ⟨rfl, rfl⟩

/-- C3: a mouseleave from any region, from any prior overlay state,
sets the overlay display to `"none"`. -/
theorem mouseleave_hides (state : Region) (tooltip : Overlay) :
    (dispatch (PointerEvent.mouseleave state) tooltip).display = "none" :=
  rfl

/-- C4: the mouseleave handler changes only the display: left, top and
content are unchanged for every prior overlay state (and the handler is
a pure function of the overlay alone, so no other element is touched). -/
theorem mouseleave_frame (state : Region) (tooltip : Overlay) :
    (dispatch (PointerEvent.mouseleave state) tooltip).left = tooltip.left ∧
    (dispatch (PointerEvent.mouseleave state) tooltip).top = tooltip.top ∧
    (dispatch (PointerEvent.mouseleave state) tooltip).innerHTML = tooltip.innerHTML :=
  ⟨rfl, rfl, rfl⟩

/-- C5: the mouseleave handler is idempotent on the overlay state: two
consecutive mouseleave events yield the same state as one. -/
theorem mouseleave_idempotent (s1 s2 : Region) (tooltip : Overlay) :
    dispatch (PointerEvent.mouseleave s2) (dispatch (PointerEvent.mouseleave s1) tooltip) =
      dispatch (PointerEvent.mouseleave s1) tooltip :=
  rfl

/-- C6: a mousemove over a region lacking the `data-inflation`
attribute still shows the overlay, and the content degenerates to
`"<id>: null"` (JavaScript `getAttribute` returns `null` for a missing
attribute and the template literal stringifies it as `"null"`). -/
theorem mousemove_missing_attribute (state : Region) (e : MoveEvent) (tooltip : Overlay)
    (h : state.getAttribute "data-inflation" = none) :
    (dispatch (PointerEvent.mousemove state e) tooltip).display = "block" ∧
    ((dispatch (PointerEvent.mousemove state e) tooltip).innerHTML = state.id ++ ": " ∨
      (dispatch (PointerEvent.mousemove state e) tooltip).innerHTML = state.id ++ ": null") := by
  refine ⟨rfl, Or.inr ?_⟩
  simp [dispatch, mousemoveHandler, h, interpolate, String.append_assoc]

/-- Witness for C6 at region `TX` carrying no attributes. -/
theorem mousemove_missing_attribute_witness :
    (dispatch (PointerEvent.mousemove ⟨"TX", []⟩ ⟨5, 7⟩)
        ⟨"0px", "0px", "none", ""⟩).display = "block" ∧
    ((dispatch (PointerEvent.mousemove ⟨"TX", []⟩ ⟨5, 7⟩)
        ⟨"0px", "0px", "none", ""⟩).innerHTML = "TX" ++ ": " ∨
      (dispatch (PointerEvent.mousemove ⟨"TX", []⟩ ⟨5, 7⟩)
        ⟨"0px", "0px", "none", ""⟩).innerHTML = "TX" ++ ": null") :=
  mousemove_missing_attribute ⟨"TX", []⟩ ⟨5, 7⟩ ⟨"0px", "0px", "none", ""⟩ rfl

/-- C7: for any finite event sequence, the final overlay state is the
last event's handler applied to the state reached before it - events
are applied strictly in dispatch order with no queuing or history. -/
theorem run_last_event_wins (evs : List PointerEvent) (e : PointerEvent) (tooltip : Overlay) :
    run (evs ++ [e]) tooltip = dispatch e (run evs tooltip) := by
  simp [run, List.foldl_append]

/-- C8: loading the script leaves the overlay state untouched and
registers, for each region element, exactly one mousemove listener and
one mouseleave listener (counted per occurrence in the region list). -/
theorem loadScript_initialization (states : List Region) (tooltip : Overlay) :
    (loadScript states tooltip).1 = tooltip ∧
    ∀ s : Region,
      ((loadScript states tooltip).2.countP
          (fun reg => reg.1 == s && reg.2 == EventType.mousemove)) = states.count s ∧
      ((loadScript states tooltip).2.countP
          (fun reg => reg.1 == s && reg.2 == EventType.mouseleave)) = states.count s :=
  ⟨rfl, fun s => ⟨registrations_countP states s EventType.mousemove,
    registrations_countP states s EventType.mouseleave⟩⟩

/-- C9: the mousemove handler is deterministic with no hidden inputs:
equal page coordinates, region id and data attribute value produce
equal overlay states, regardless of the prior overlay state. -/
theorem mousemove_deterministic (s1 s2 : Region) (e : MoveEvent) (t1 t2 : Overlay)
    (hid : s1.id = s2.id)
    (hattr : s1.getAttribute "data-inflation" = s2.getAttribute "data-inflation") :
    dispatch (PointerEvent.mousemove s1 e) t1 = dispatch (PointerEvent.mousemove s2 e) t2 := by
  simp [dispatch, mousemoveHandler, hid, hattr]

/-- Witness for C9: two regions with the same id and data value but
different extra attributes, over two different prior overlay states. -/
theorem mousemove_deterministic_witness :
    dispatch (PointerEvent.mousemove ⟨"CA", [("data-inflation", "3.2%")]⟩ ⟨1, 2⟩)
        ⟨"0px", "0px", "none", "old"⟩ =
      dispatch
        (PointerEvent.mousemove ⟨"CA", [("data-inflation", "3.2%"), ("fill", "red")]⟩ ⟨1, 2⟩)
        ⟨"9px", "9px", "block", "other"⟩ :=
  mousemove_deterministic ⟨"CA", [("data-inflation", "3.2%")]⟩
    ⟨"CA", [("data-inflation", "3.2%"), ("fill", "red")]⟩ ⟨1, 2⟩
    ⟨"0px", "0px", "none", "old"⟩ ⟨"9px", "9px", "block", "other"⟩ rfl (by decide)

/-- C10: the data attribute is re-read at each dispatch: after the host
updates a region's `data-inflation` attribute to `v`, a mousemove over
that region displays `v`, whatever the attribute held before. -/
theorem mousemove_rereads_attribute (state : Region) (v : String) (e : MoveEvent)
    (tooltip : Overlay) :
    (dispatch (PointerEvent.mousemove (state.setAttribute "data-inflation" v) e)
        tooltip).innerHTML = state.id ++ ": " ++ v := by
  simp [dispatch, mousemoveHandler, Region.setAttribute, Region.getAttribute, interpolate]

end Tooltip
